import Mathlib

/-!
Verification of the nanotron optimizer/scheduler checkpoint persistence
subsystem (`src/nanotron/serialize/optimizer.py`).

The shallow embedding below translates the Python module into Lean:
process-group queries become field lookups on an immutable `ParallelContext`
record; the filesystem becomes an explicit value (a directory set plus an
association list of files, where a prepended entry shadows an older one,
modelling overwrite); `torch.save` / `torch.load` become writes/reads of an
opaque payload; fallible loads return `Except`.
-/

namespace NanotronSerialize

/-- Parallelism axes, as queried on the Python `ParallelContext` via
`ParallelMode.DATA / TENSOR / PIPELINE / GLOBAL`. -/
inductive ParallelMode where
  | DATA
  | TENSOR
  | PIPELINE
  | GLOBAL
deriving DecidableEq

/-- A process's coordinates in the 3D parallel topology plus its global rank.
In the Python source these are queried from the ambient process groups via
`get_local_rank` / `get_world_size` / `get_global_rank`; here they are an
immutable per-process record. -/
structure ParallelContext where
  dp_rank : Nat
  dp_world_size : Nat
  tp_rank : Nat
  tp_world_size : Nat
  pp_rank : Nat
  pp_world_size : Nat
  global_rank : Nat
  global_world_size : Nat
deriving DecidableEq

def ParallelContext.get_local_rank (pc : ParallelContext) : ParallelMode → Nat
  | ParallelMode.DATA => pc.dp_rank
  | ParallelMode.TENSOR => pc.tp_rank
  | ParallelMode.PIPELINE => pc.pp_rank
  | ParallelMode.GLOBAL => pc.global_rank

def ParallelContext.get_world_size (pc : ParallelContext) : ParallelMode → Nat
  | ParallelMode.DATA => pc.dp_world_size
  | ParallelMode.TENSOR => pc.tp_world_size
  | ParallelMode.PIPELINE => pc.pp_world_size
  | ParallelMode.GLOBAL => pc.global_world_size

def ParallelContext.get_global_rank (pc : ParallelContext) : Nat :=
  pc.global_rank

/-- A context is well formed when every rank lies below its world size
(in particular every world size is positive, as for any real process group). -/
def ParallelContext.valid (pc : ParallelContext) : Prop :=
  pc.dp_rank < pc.dp_world_size ∧ pc.tp_rank < pc.tp_world_size ∧
    pc.pp_rank < pc.pp_world_size ∧ pc.global_rank < pc.global_world_size

instance (pc : ParallelContext) : Decidable pc.valid := by
  unfold ParallelContext.valid
  infer_instance

/-- Modelled from the spec: `ObjectType` lives in `nanotron.serialize.utils`,
which is not part of the shown source. The spec's filesystem layout (§6,
`optimizer_pp-...pt` and `lr_scheduler.pt`) fixes the two enum values used
here: `OPTIMIZER.value = "optimizer"` and `LR_SCHEDULER.value = "lr_scheduler"`. -/
inductive ObjectType where
  | OPTIMIZER
  | LR_SCHEDULER
deriving DecidableEq

def ObjectType.value : ObjectType → String
  | ObjectType.OPTIMIZER => "optimizer"
  | ObjectType.LR_SCHEDULER => "lr_scheduler"

/-- `optimizer_filename(parallel_context, is_zero)` from the source: the shard
filename for the optimizer state of the calling process. With `is_zero` the
name embeds the pipeline, data and tensor coordinates; without it the name
embeds the pipeline coordinates and the data coordinates placed under the
`tp` label (and the tensor rank does not appear). -/
def optimizer_filename (parallel_context : ParallelContext) (is_zero : Bool) : String :=
  let dp_rank := parallel_context.get_local_rank ParallelMode.DATA
  let pp_rank := parallel_context.get_local_rank ParallelMode.PIPELINE
  let dp_world_size := parallel_context.get_world_size ParallelMode.DATA
  let pp_world_size := parallel_context.get_world_size ParallelMode.PIPELINE
  if is_zero then
    let tp_rank := parallel_context.get_local_rank ParallelMode.TENSOR
    let tp_world_size := parallel_context.get_world_size ParallelMode.TENSOR
    ObjectType.OPTIMIZER.value ++ "_pp-" ++ toString pp_rank ++ "-of-" ++
      toString pp_world_size ++ "_dp-" ++ toString dp_rank ++ "-of-" ++
      toString dp_world_size ++ "_tp-" ++ toString tp_rank ++ "-of-" ++
      toString tp_world_size ++ ".pt"
  else
    ObjectType.OPTIMIZER.value ++ "_pp-" ++ toString pp_rank ++ "-of-" ++
      toString pp_world_size ++ "_tp-" ++ toString dp_rank ++ "-of-" ++
      toString dp_world_size ++ ".pt"

/-- `lr_scheduler_filename()` from the source: the lr scheduler file name is a
constant, the same for all processes. -/
def lr_scheduler_filename : String :=
  ObjectType.LR_SCHEDULER.value ++ ".pt"

/-- A filesystem path, as the list of its segments; `pjoin` is Python's
`Path.__truediv__`. -/
abbrev FsPath := List String

def pjoin (p : FsPath) (s : String) : FsPath :=
  p ++ [s]

/-- Contents of a file written by this module: either a `torch.save` payload
(the opaque state mapping, of type `V`) or the JSON manifest
`{"type": <class-name>}` written by `json.dump`. -/
inductive FileContent (V : Type) where
  | torchPayload (v : V)
  | jsonManifest (ty : String)
deriving DecidableEq

/-- The filesystem: the set of directories that exist, and the files as an
association list from path to content. A new write is prepended, and reads
take the first (most recent) entry, so writing at an existing path
overwrites it. -/
structure FileSystem (V : Type) where
  dirs : List FsPath
  files : List (FsPath × FileContent V)
deriving DecidableEq

def FileSystem.empty (V : Type) : FileSystem V :=
  { dirs := [], files := [] }

/-- `Path.mkdir(exist_ok=True, parents=True)`: records the directory and all
its ancestors as existing; never fails. -/
def FileSystem.mkdir (fs : FileSystem V) (p : FsPath) : FileSystem V :=
  { fs with dirs := p.inits ++ fs.dirs }

/-- Write a file at a path (overwriting any previous content there). -/
def FileSystem.writeFile (fs : FileSystem V) (p : FsPath) (c : FileContent V) : FileSystem V :=
  { fs with files := (p, c) :: fs.files }

/-- Read the current content at a path, if a file exists there. -/
def FileSystem.read (fs : FileSystem V) (p : FsPath) : Option (FileContent V) :=
  fs.files.lookup p

/-- Errors surfaced by a load: the expected shard file is absent
(`ShardNotFoundError`, Python's `FileNotFoundError` out of `torch.load`), or
the codec fails on the bytes found there. -/
inductive LoadError where
  | ShardNotFoundError
  | SerializationError
deriving DecidableEq

/-- `torch.load(path, map_location)`: deserializes the payload at `path`.
The `map_location` only selects the staging device and does not change the
deserialized value. -/
def torch_load (fs : FileSystem V) (p : FsPath) (map_location : Option String) :
    Except LoadError V :=
  match fs.read p with
  | none => Except.error LoadError.ShardNotFoundError
  | some (FileContent.torchPayload v) => Except.ok v
  | some (FileContent.jsonManifest _) => Except.error LoadError.SerializationError

/-- The optimizer object as seen by this module: its class name (for the
manifest), whether it `inherit_from(optim.ZeroDistributedOptimizer)`, and the
opaque state mapping returned by `state_dict()`. -/
structure Optimizer (V : Type) where
  className : String
  inheritsZero : Bool
  state : V
deriving DecidableEq

/-- `optimizer.state_dict()`. -/
def Optimizer.state_dict (o : Optimizer V) : V :=
  o.state

/-- `optimizer.load_state_dict(sd)`. -/
def Optimizer.load_state_dict (o : Optimizer V) (sd : V) : Optimizer V :=
  { o with state := sd }

/-- The spec's `OptimizerReplicationMode`: SHARDED when the optimizer
inherits from `ZeroDistributedOptimizer` (Zero-1), REPLICATED otherwise
(Zero-0). -/
inductive OptimizerReplicationMode where
  | REPLICATED
  | SHARDED
deriving DecidableEq

def Optimizer.mode (o : Optimizer V) : OptimizerReplicationMode :=
  if o.inheritsZero then OptimizerReplicationMode.SHARDED
  else OptimizerReplicationMode.REPLICATED

/-- The lr scheduler object: just its opaque state mapping. -/
structure LRScheduler (V : Type) where
  state : V
deriving DecidableEq

def LRScheduler.state_dict (s : LRScheduler V) : V :=
  s.state

def LRScheduler.load_state_dict (s : LRScheduler V) (sd : V) : LRScheduler V :=
  { s with state := sd }

/-- `save_optimizer(optimizer, parallel_context, root_folder)` from the
source, as a filesystem transformer. Steps, in source order: descend into
`root_folder / "optimizer"` and create it; write the manifest when
`get_world_size(GLOBAL) == 0` (the source's condition, verbatim); then skip
when not Zero and `dp_rank > 0`, else `torch.save` the state dict under
`optimizer_filename`. -/
def save_optimizer (optimizer : Optimizer V) (parallel_context : ParallelContext)
    (root_folder : FsPath) (fs : FileSystem V) : FileSystem V :=
  let root_folder := pjoin root_folder ("optimizer")
  let fs := fs.mkdir root_folder
  let fs :=
    if parallel_context.get_world_size ParallelMode.GLOBAL = 0 then
      fs.writeFile (pjoin root_folder ("optimizer_config.json"))
        (FileContent.jsonManifest optimizer.className)
    else fs
  let dp_rank := parallel_context.get_local_rank ParallelMode.DATA
  if optimizer.inheritsZero = false ∧ dp_rank > 0 then
    fs
  else
    fs.writeFile (pjoin root_folder (optimizer_filename parallel_context optimizer.inheritsZero))
      (FileContent.torchPayload optimizer.state_dict)

/-- `save_lr_scheduler(lr_scheduler, parallel_context, root_folder)` from the
source: return unchanged unless the global rank is 0; otherwise create
`root_folder / "lr_scheduler"` and `torch.save` the scheduler state there
under the constant filename. -/
def save_lr_scheduler (lr_scheduler : LRScheduler V) (parallel_context : ParallelContext)
    (root_folder : FsPath) (fs : FileSystem V) : FileSystem V :=
  if parallel_context.get_global_rank > 0 then
    fs
  else
    let root_folder := pjoin root_folder ("lr_scheduler")
    let fs := fs.mkdir root_folder
    fs.writeFile (pjoin root_folder lr_scheduler_filename)
      (FileContent.torchPayload lr_scheduler.state_dict)

/-- Observable outcome of `load_optimizer`: the path it read, the
`map_location` actually handed to `torch.load`, how many times it invoked
`optimizer.load_state_dict`, the state mapping it passed there (if any), and
the resulting optimizer or the propagated error. -/
structure OptLoadOutcome (V : Type) where
  readPath : FsPath
  usedMapLocation : Option String
  loadStateDictCalls : Nat
  loadedStateDict : Option V
  result : Except LoadError (Optimizer V)

/-- `load_optimizer(optimizer, parallel_context, root_folder, map_location)`
from the source: descend into `root_folder / "optimizer"`, override
`map_location` with `"cpu"` when the optimizer is not Zero, `torch.load` the
shard named by `optimizer_filename` for this process's own coordinates, and
hand the result to `optimizer.load_state_dict`. -/
def load_optimizer (optimizer : Optimizer V) (parallel_context : ParallelContext)
    (root_folder : FsPath) (map_location : Option String) (fs : FileSystem V) :
    OptLoadOutcome V :=
  let root_folder := pjoin root_folder ("optimizer")
  let map_location :=
    if optimizer.inheritsZero = false then some ("cpu") else map_location
  let p := pjoin root_folder (optimizer_filename parallel_context optimizer.inheritsZero)
  match torch_load fs p map_location with
  | Except.error e =>
      { readPath := p, usedMapLocation := map_location, loadStateDictCalls := 0,
        loadedStateDict := none, result := Except.error e }
  | Except.ok state_dict =>
      { readPath := p, usedMapLocation := map_location, loadStateDictCalls := 1,
        loadedStateDict := some state_dict,
        result := Except.ok (optimizer.load_state_dict state_dict) }

/-- Observable outcome of `load_lr_scheduler`, mirroring `OptLoadOutcome`. -/
structure SchedLoadOutcome (V : Type) where
  readPath : FsPath
  loadStateDictCalls : Nat
  loadedStateDict : Option V
  result : Except LoadError (LRScheduler V)

/-- `load_lr_scheduler(lr_scheduler, root_folder)` from the source: read the
single constant-named file under `root_folder / "lr_scheduler"` (no parallel
context is consulted) and hand the result to `load_state_dict`. -/
def load_lr_scheduler (lr_scheduler : LRScheduler V) (root_folder : FsPath)
    (fs : FileSystem V) : SchedLoadOutcome V :=
  let root_folder := pjoin root_folder ("lr_scheduler")
  let p := pjoin root_folder lr_scheduler_filename
  match torch_load fs p none with
  | Except.error e =>
      { readPath := p, loadStateDictCalls := 0, loadedStateDict := none,
        result := Except.error e }
  | Except.ok state_dict =>
      { readPath := p, loadStateDictCalls := 1, loadedStateDict := some state_dict,
        result := Except.ok (lr_scheduler.load_state_dict state_dict) }

/-- The path at which `save_optimizer` stores this process's state shard and
from which `load_optimizer` reads it back. -/
def optimizer_state_path (pc : ParallelContext) (root : FsPath) (is_zero : Bool) : FsPath :=
  pjoin (pjoin root ("optimizer")) (optimizer_filename pc is_zero)

/-- The path of the optimizer manifest `optimizer_config.json`. -/
def optimizer_manifest_path (root : FsPath) : FsPath :=
  pjoin (pjoin root ("optimizer")) ("optimizer_config.json")

/-- The constant path used by both `save_lr_scheduler` and
`load_lr_scheduler`. -/
def lr_scheduler_path (root : FsPath) : FsPath :=
  pjoin (pjoin root ("lr_scheduler")) lr_scheduler_filename

/-
Concrete fixtures used to exercise the definitions: small topologies with a
tensor-parallel pair, a data-parallel pair, and a replicated and a sharded
optimizer over `Nat` payloads.
-/

/-- Process at (pp 0 of 1, dp 0 of 1, tp 0 of 2), global rank 0 of 2. -/
def pcTpZero : ParallelContext :=
  { dp_rank := 0, dp_world_size := 1, tp_rank := 0, tp_world_size := 2,
    pp_rank := 0, pp_world_size := 1, global_rank := 0, global_world_size := 2 }

/-- Process at (pp 0 of 1, dp 0 of 1, tp 1 of 2), global rank 1 of 2. -/
def pcTpOne : ParallelContext :=
  { dp_rank := 0, dp_world_size := 1, tp_rank := 1, tp_world_size := 2,
    pp_rank := 0, pp_world_size := 1, global_rank := 1, global_world_size := 2 }

/-- Process at (pp 0 of 1, dp 1 of 2, tp 0 of 1), global rank 1 of 2: a
REPLICATED-mode non-owner. -/
def pcDpOne : ParallelContext :=
  { dp_rank := 1, dp_world_size := 2, tp_rank := 0, tp_world_size := 1,
    pp_rank := 0, pp_world_size := 1, global_rank := 1, global_world_size := 2 }

/-- Rank 0 in a data-parallel world of size 2. -/
def pcDpWorld2 : ParallelContext :=
  { dp_rank := 0, dp_world_size := 2, tp_rank := 0, tp_world_size := 1,
    pp_rank := 0, pp_world_size := 1, global_rank := 0, global_world_size := 2 }

/-- Rank 0 in a data-parallel world of size 4 (a different topology from
`pcDpWorld2`, as after a resize between save and load). -/
def pcDpWorld4 : ParallelContext :=
  { dp_rank := 0, dp_world_size := 4, tp_rank := 0, tp_world_size := 1,
    pp_rank := 0, pp_world_size := 1, global_rank := 0, global_world_size := 4 }

/-- Process with global rank 2 of 4. -/
def pcGlobal2 : ParallelContext :=
  { dp_rank := 0, dp_world_size := 1, tp_rank := 0, tp_world_size := 1,
    pp_rank := 0, pp_world_size := 1, global_rank := 2, global_world_size := 4 }

/-- A Zero-0 (REPLICATED) optimizer with payload 7. -/
def optRep : Optimizer Nat :=
  { className := "AdamW", inheritsZero := false, state := 7 }

/-- A Zero-1 (SHARDED) optimizer with payload 9. -/
def optShard : Optimizer Nat :=
  { className := "ZeroDistributedOptimizer", inheritsZero := true, state := 9 }

/-- A scheduler with payload 3. -/
def schedFix : LRScheduler Nat :=
  { state := 3 }

/-! Basic lemmas about the filesystem model. -/

theorem FileSystem.read_writeFile_self (fs : FileSystem V) (p : FsPath) (c : FileContent V) :
    (fs.writeFile p c).read p = some c := by
  simp [FileSystem.writeFile, FileSystem.read, List.lookup]

theorem FileSystem.read_writeFile_ne (fs : FileSystem V) (p q : FsPath) (c : FileContent V)
    (h : p ≠ q) : (fs.writeFile q c).read p = fs.read p := by
  have hbeq : (p == q) = false := beq_eq_false_iff_ne.mpr h
  simp [FileSystem.writeFile, FileSystem.read, List.lookup, hbeq]

theorem FileSystem.files_mkdir (fs : FileSystem V) (p : FsPath) :
    (fs.mkdir p).files = fs.files := rfl

theorem FileSystem.read_mkdir (fs : FileSystem V) (p q : FsPath) :
    (fs.mkdir q).read p = fs.read p := rfl

theorem FileSystem.mem_dirs_mkdir (fs : FileSystem V) (p : FsPath) :
    p ∈ (fs.mkdir p).dirs := by
  simp [FileSystem.mkdir, List.mem_inits]

theorem pjoin_right_injective (root : FsPath) (a b : String) (h : a ≠ b) :
    pjoin root a ≠ pjoin root b := by
  intro hab
  have hs : [a] = [b] := List.append_cancel_left hab
  simp only [List.cons.injEq, and_true] at hs
  exact h hs

/-- A valid context runs in a global world of positive size, so the manifest
condition `get_world_size(GLOBAL) == 0` of `save_optimizer` is false. -/
theorem valid_global_world_size_ne_zero (pc : ParallelContext) (hv : pc.valid) :
    ¬ pc.get_world_size ParallelMode.GLOBAL = 0 := by
  rcases hv with ⟨-, -, -, h4⟩
  simp only [ParallelContext.get_world_size]
  omega

/-- The files written by `save_optimizer` under a valid context: the state
shard is prepended when the ownership predicate holds, and the file list is
untouched otherwise (the manifest branch is never taken, see
`optimizer_manifest_never_written`). -/
theorem save_optimizer_files_eq (V : Type) (opt : Optimizer V) (pc : ParallelContext)
    (root : FsPath) (fs : FileSystem V) (hv : pc.valid) :
    (save_optimizer opt pc root fs).files =
      if opt.inheritsZero = true ∨ pc.get_local_rank ParallelMode.DATA = 0 then
        (optimizer_state_path pc root opt.inheritsZero,
          FileContent.torchPayload opt.state_dict) :: fs.files
      else fs.files := by
  have hws := valid_global_world_size_ne_zero pc hv
  by_cases hown : opt.inheritsZero = true ∨ pc.get_local_rank ParallelMode.DATA = 0
  · have hskip : ¬ (opt.inheritsZero = false ∧ pc.get_local_rank ParallelMode.DATA > 0) := by
      rcases hown with h | h
      · intro hc
        rw [h] at hc
        exact Bool.true_eq_false.mp hc.1
      · intro hc
        omega
    simp [save_optimizer, hws, hskip, hown, optimizer_state_path,
      FileSystem.writeFile, FileSystem.mkdir]
  · have hskip : opt.inheritsZero = false ∧ pc.get_local_rank ParallelMode.DATA > 0 := by
      push_neg at hown
      exact ⟨Bool.not_eq_true opt.inheritsZero ▸ hown.1, Nat.pos_of_ne_zero hown.2⟩
    have hdp : ¬ pc.get_local_rank ParallelMode.DATA = 0 := by
      have := hskip.2
      omega
    simp [save_optimizer, hws, hskip, hdp, FileSystem.writeFile, FileSystem.mkdir]

/-- C1: the claimed injectivity of `optimizer_filename` across ownership
classes fails on the code in REPLICATED mode: the two valid processes
`pcTpZero` and `pcTpOne` differ in their tensor coordinate (so they lie in
different ownership classes and hold different shards), both are
REPLICATED-mode owners (`data_rank = 0`), yet they compute the same
filename, because the REPLICATED branch never embeds the tensor rank. -/
theorem replicated_filename_collision_across_tensor_ranks :
    optimizer_filename pcTpZero false = optimizer_filename pcTpOne false ∧
    pcTpZero.get_local_rank ParallelMode.TENSOR ≠ pcTpOne.get_local_rank ParallelMode.TENSOR ∧
    pcTpZero.get_local_rank ParallelMode.DATA = 0 ∧
    pcTpOne.get_local_rank ParallelMode.DATA = 0 ∧
    pcTpZero.valid ∧ pcTpOne.valid := by
  refine ⟨rfl, by decide, rfl, rfl, by decide, by decide⟩

/-- C2: the manifest is never written. On the failing input — the valid
global-rank-0 process `pcTpZero` saving into an empty filesystem — the file
`optimizer_config.json` is absent after `save_optimizer`, because the
source's guard compares the GLOBAL world size (which is positive) to 0
instead of the global rank. -/
theorem optimizer_manifest_never_written :
    pcTpZero.get_global_rank = 0 ∧ pcTpZero.valid ∧
    (save_optimizer optRep pcTpZero [] (FileSystem.empty Nat)).read
      (optimizer_manifest_path []) = none := by
  refine ⟨rfl, by decide, rfl⟩

/-- C4: the exact shape of `optimizer_filename`. With `is_zero = true`
(SHARDED) the name embeds the pipeline, data and tensor rank/world-size
triples; with `is_zero = false` (REPLICATED) it embeds the pipeline
coordinates and then the data rank and data world size under the `tp`
label, and the tensor rank appears nowhere. -/
theorem optimizer_filename_format (pc : ParallelContext) :
    optimizer_filename pc true =
      "optimizer_pp-" ++ toString pc.pp_rank ++ "-of-" ++ toString pc.pp_world_size ++
        "_dp-" ++ toString pc.dp_rank ++ "-of-" ++ toString pc.dp_world_size ++
        "_tp-" ++ toString pc.tp_rank ++ "-of-" ++ toString pc.tp_world_size ++ ".pt" ∧
    optimizer_filename pc false =
      "optimizer_pp-" ++ toString pc.pp_rank ++ "-of-" ++ toString pc.pp_world_size ++
        "_tp-" ++ toString pc.dp_rank ++ "-of-" ++ toString pc.dp_world_size ++ ".pt" :=
  ⟨rfl, rfl⟩

/-- C3: under a valid context, `save_optimizer` writes the state shard (and
nothing else) exactly when the ownership predicate `is_zero OR data_rank = 0`
holds, and leaves the file list untouched (returning normally) exactly when
it does not; so in SHARDED mode every process writes and in REPLICATED mode
exactly the processes with `data_rank = 0` do. -/
theorem save_optimizer_writes_state_iff (V : Type) (opt : Optimizer V) (pc : ParallelContext)
    (root : FsPath) (fs : FileSystem V) (hv : pc.valid) :
    ((save_optimizer opt pc root fs).files =
        (optimizer_state_path pc root opt.inheritsZero,
          FileContent.torchPayload opt.state_dict) :: fs.files ↔
      (opt.inheritsZero = true ∨ pc.get_local_rank ParallelMode.DATA = 0)) ∧
    ((save_optimizer opt pc root fs).files = fs.files ↔
      ¬ (opt.inheritsZero = true ∨ pc.get_local_rank ParallelMode.DATA = 0)) := by
  have h := save_optimizer_files_eq V opt pc root fs hv
  by_cases hown : opt.inheritsZero = true ∨ pc.get_local_rank ParallelMode.DATA = 0
  · rw [if_pos hown] at h
    refine ⟨⟨fun _ => hown, fun _ => h⟩, ?_, fun hc => absurd hown hc⟩
    intro hf
    rw [h] at hf
    exact absurd hf (List.cons_ne_self _ _)
  · rw [if_neg hown] at h
    refine ⟨⟨?_, fun hc => absurd hc hown⟩, ⟨fun _ => hown, fun _ => h⟩⟩
    intro hf
    rw [h] at hf
    exact absurd hf.symm (List.cons_ne_self _ _)

theorem save_optimizer_writes_state_iff_witness :
    ((save_optimizer optRep pcTpZero [] (FileSystem.empty Nat)).files =
        (optimizer_state_path pcTpZero [] optRep.inheritsZero,
          FileContent.torchPayload optRep.state_dict) :: (FileSystem.empty Nat).files) ∧
    ((save_optimizer optShard pcDpOne [] (FileSystem.empty Nat)).files =
        (optimizer_state_path pcDpOne [] optShard.inheritsZero,
          FileContent.torchPayload optShard.state_dict) :: (FileSystem.empty Nat).files) ∧
    ((save_optimizer optRep pcDpOne [] (FileSystem.empty Nat)).files =
        (FileSystem.empty Nat).files) :=
  ⟨(save_optimizer_writes_state_iff Nat optRep pcTpZero [] (FileSystem.empty Nat)
      (by decide)).1.mpr (Or.inr rfl),
   (save_optimizer_writes_state_iff Nat optShard pcDpOne [] (FileSystem.empty Nat)
      (by decide)).1.mpr (Or.inl rfl),
   (save_optimizer_writes_state_iff Nat optRep pcDpOne [] (FileSystem.empty Nat)
      (by decide)).2.mpr (by decide)⟩

/-- After a save by an owner, the saved state dict sits at
`optimizer_state_path` (the state write is the last write, so it shadows
everything else). -/
theorem save_optimizer_read_state_dict (V : Type) (opt : Optimizer V) (pc : ParallelContext)
    (root : FsPath) (fs : FileSystem V)
    (hown : opt.inheritsZero = true ∨ pc.get_local_rank ParallelMode.DATA = 0) :
    (save_optimizer opt pc root fs).read (optimizer_state_path pc root opt.inheritsZero) =
      some (FileContent.torchPayload opt.state_dict) := by
  have hskip : ¬ (opt.inheritsZero = false ∧ pc.get_local_rank ParallelMode.DATA > 0) := by
    rcases hown with h | h
    · intro hc
      rw [h] at hc
      exact Bool.true_eq_false.mp hc.1
    · intro hc
      omega
  by_cases hws : pc.get_world_size ParallelMode.GLOBAL = 0 <;>
    simp [save_optimizer, hws, hskip, optimizer_state_path, FileSystem.read,
      FileSystem.writeFile, FileSystem.mkdir, List.lookup]

/-- C5: round-trip. If a process saves (and owns the write: SHARDED mode or
`data_rank = 0`) and then loads with the same coordinates, mode and root,
the state mapping handed to `load_state_dict` is exactly the one saved, and
the resulting optimizer is the original one updated with its own state. -/
theorem save_then_load_round_trip (V : Type) (opt : Optimizer V) (pc : ParallelContext)
    (root : FsPath) (ml : Option String) (fs : FileSystem V)
    (hown : opt.inheritsZero = true ∨ pc.get_local_rank ParallelMode.DATA = 0) :
    (load_optimizer opt pc root ml (save_optimizer opt pc root fs)).loadedStateDict =
      some opt.state_dict ∧
    (load_optimizer opt pc root ml (save_optimizer opt pc root fs)).result =
      Except.ok (opt.load_state_dict opt.state_dict) := by
  have hread := save_optimizer_read_state_dict V opt pc root fs hown
  simp only [optimizer_state_path] at hread
  simp [load_optimizer, torch_load, hread]

theorem save_then_load_round_trip_witness :
    ((load_optimizer optRep pcTpZero [] none
        (save_optimizer optRep pcTpZero [] (FileSystem.empty Nat))).loadedStateDict =
      some optRep.state_dict) ∧
    ((load_optimizer optRep pcTpZero [] none
        (save_optimizer optRep pcTpZero [] (FileSystem.empty Nat))).result =
      Except.ok (optRep.load_state_dict optRep.state_dict)) :=
  save_then_load_round_trip Nat optRep pcTpZero [] none (FileSystem.empty Nat) (Or.inr rfl)

/-- C6: scheduler singleton. `save_lr_scheduler` leaves the filesystem
untouched whenever the global rank is positive, and on global rank 0 writes
exactly one file, at the constant coordinate-free path
`root/lr_scheduler/lr_scheduler.pt`; `load_lr_scheduler` (which takes no
parallel context at all, so any process may call it) always reads that same
constant path. -/
theorem lr_scheduler_singleton_owner (V : Type) (sched : LRScheduler V) (pc : ParallelContext)
    (root : FsPath) (fs : FileSystem V) :
    (0 < pc.get_global_rank → save_lr_scheduler sched pc root fs = fs) ∧
    (pc.get_global_rank = 0 →
      (save_lr_scheduler sched pc root fs).files =
        (lr_scheduler_path root, FileContent.torchPayload sched.state_dict) :: fs.files) ∧
    (load_lr_scheduler sched root fs).readPath = lr_scheduler_path root ∧
    lr_scheduler_path root = pjoin (pjoin root ("lr_scheduler")) ("lr_scheduler.pt") := by
  refine ⟨?_, ?_, ?_, rfl⟩
  · intro h
    simp [save_lr_scheduler, h]
  · intro h
    have hng : ¬ pc.get_global_rank > 0 := by omega
    simp [save_lr_scheduler, hng, lr_scheduler_path, FileSystem.writeFile, FileSystem.mkdir]
  · rcases h : torch_load fs (pjoin (pjoin root ("lr_scheduler")) lr_scheduler_filename) none
      with e | v <;> simp [load_lr_scheduler, h, lr_scheduler_path]

theorem lr_scheduler_singleton_owner_witness :
    (save_lr_scheduler schedFix pcGlobal2 [] (FileSystem.empty Nat) = FileSystem.empty Nat) ∧
    ((save_lr_scheduler schedFix pcTpZero [] (FileSystem.empty Nat)).files =
      (lr_scheduler_path [], FileContent.torchPayload schedFix.state_dict) ::
        (FileSystem.empty Nat).files) :=
  ⟨(lr_scheduler_singleton_owner Nat schedFix pcGlobal2 [] (FileSystem.empty Nat)).1
      (by decide),
   (lr_scheduler_singleton_owner Nat schedFix pcTpZero [] (FileSystem.empty Nat)).2.1 rfl⟩

/-- C7: `load_optimizer` surfaces `ShardNotFoundError` exactly when no file
exists at the expected shard path for the caller's own coordinates; and
after a save by a process of one topology into a fresh root, a load by a
process whose filename differs (e.g. a different world size) hits the
missing-shard error rather than silently reading the other shard. -/
theorem load_optimizer_shard_not_found_iff (V : Type) (opt : Optimizer V)
    (pcSave pcLoad : ParallelContext) (root : FsPath) (ml : Option String)
    (fs : FileSystem V) :
    ((load_optimizer opt pcLoad root ml fs).result =
        Except.error LoadError.ShardNotFoundError ↔
      fs.read (optimizer_state_path pcLoad root opt.inheritsZero) = none) ∧
    (pcSave.valid →
      optimizer_filename pcLoad opt.inheritsZero ≠ optimizer_filename pcSave opt.inheritsZero →
      (load_optimizer opt pcLoad root ml
          (save_optimizer opt pcSave root (FileSystem.empty V))).result =
        Except.error LoadError.ShardNotFoundError) := by
  have hmain : ∀ g : FileSystem V,
      (load_optimizer opt pcLoad root ml g).result =
          Except.error LoadError.ShardNotFoundError ↔
        g.read (optimizer_state_path pcLoad root opt.inheritsZero) = none := by
    intro g
    rcases h : g.read (pjoin (pjoin root ("optimizer")) (optimizer_filename pcLoad opt.inheritsZero))
      with _ | c
    · simp [load_optimizer, torch_load, h, optimizer_state_path]
    · rcases c with v | t <;> simp [load_optimizer, torch_load, h, optimizer_state_path]
  refine ⟨hmain fs, ?_⟩
  intro hvalid hneq
  rw [hmain]
  have hfiles := save_optimizer_files_eq V opt pcSave root (FileSystem.empty V) hvalid
  have hne : optimizer_state_path pcLoad root opt.inheritsZero ≠
      optimizer_state_path pcSave root opt.inheritsZero := by
    simp only [optimizer_state_path]
    exact pjoin_right_injective _ _ _ hneq
  by_cases hown : opt.inheritsZero = true ∨ pcSave.get_local_rank ParallelMode.DATA = 0
  · rw [if_pos hown] at hfiles
    have hbeq : (optimizer_state_path pcLoad root opt.inheritsZero ==
        optimizer_state_path pcSave root opt.inheritsZero) = false :=
      beq_eq_false_iff_ne.mpr hne
    simp only [FileSystem.read]
    rw [hfiles]
    simp only [FileSystem.empty, List.lookup, hbeq]
  · rw [if_neg hown] at hfiles
    simp only [FileSystem.read]
    rw [hfiles]
    simp only [FileSystem.empty, List.lookup]

theorem load_optimizer_shard_not_found_iff_witness :
    (load_optimizer optShard pcDpWorld4 [] none
        (save_optimizer optShard pcDpWorld2 [] (FileSystem.empty Nat))).result =
      Except.error LoadError.ShardNotFoundError :=
  (load_optimizer_shard_not_found_iff Nat optShard pcDpWorld2 pcDpWorld4 [] none
      (FileSystem.empty Nat)).2 (by decide) (by decide)

/-- The `map_location` actually handed to `torch.load` by `load_optimizer`:
the caller's value is overridden with the `"cpu"` staging location exactly
when the optimizer is not Zero. -/
theorem load_optimizer_used_map_location (V : Type) (opt : Optimizer V) (pc : ParallelContext)
    (root : FsPath) (ml : Option String) (fs : FileSystem V) :
    (load_optimizer opt pc root ml fs).usedMapLocation =
      if opt.inheritsZero = false then some ("cpu") else ml := by
  rcases h : torch_load fs
      (pjoin (pjoin root ("optimizer")) (optimizer_filename pc opt.inheritsZero))
      (if opt.inheritsZero = false then some ("cpu") else ml) with e | v <;>
    simp [load_optimizer, h]

/-- C8: in REPLICATED mode (the optimizer does not inherit from
`ZeroDistributedOptimizer`) the deserialization target is the `"cpu"`
staging location, whatever `map_location` the caller supplied; in SHARDED
mode it is exactly the caller-supplied `map_location`. -/
theorem load_optimizer_map_location_staging (V : Type) (opt : Optimizer V)
    (pc : ParallelContext) (root : FsPath) (ml : Option String) (fs : FileSystem V) :
    (opt.mode = OptimizerReplicationMode.REPLICATED →
      (load_optimizer opt pc root ml fs).usedMapLocation = some ("cpu")) ∧
    (opt.mode = OptimizerReplicationMode.SHARDED →
      (load_optimizer opt pc root ml fs).usedMapLocation = ml) := by
  have hused := load_optimizer_used_map_location V opt pc root ml fs
  cases hz : opt.inheritsZero
  · refine ⟨fun _ => ?_, fun hm => ?_⟩
    · rw [hused, hz]
      simp
    · exfalso
      simp [Optimizer.mode, hz] at hm
  · refine ⟨fun hm => ?_, fun _ => ?_⟩
    · exfalso
      simp [Optimizer.mode, hz] at hm
    · rw [hused, hz]
      simp

theorem load_optimizer_map_location_staging_witness :
    ((load_optimizer optRep pcTpZero [] (some ("meta")) (FileSystem.empty Nat)).usedMapLocation =
      some ("cpu")) ∧
    ((load_optimizer optShard pcTpZero [] (some ("meta")) (FileSystem.empty Nat)).usedMapLocation =
      some ("meta")) :=
  ⟨(load_optimizer_map_location_staging Nat optRep pcTpZero [] (some ("meta"))
      (FileSystem.empty Nat)).1 rfl,
   (load_optimizer_map_location_staging Nat optShard pcTpZero [] (some ("meta"))
      (FileSystem.empty Nat)).2 rfl⟩

/-- C9: frame effect of the skipping paths. Every `save_optimizer` call —
owner or not — records the `root/optimizer` directory as existing (the mkdir
precedes the ownership test), while a non-owner's call leaves the file list
untouched; by contrast `save_lr_scheduler` on a positive global rank returns
before its mkdir and changes nothing at all. -/
theorem save_skip_frame_effects (V : Type) (opt : Optimizer V) (sched : LRScheduler V)
    (pc : ParallelContext) (root : FsPath) (fs : FileSystem V) (hv : pc.valid) :
    pjoin root ("optimizer") ∈ (save_optimizer opt pc root fs).dirs ∧
    (opt.inheritsZero = false → 0 < pc.get_local_rank ParallelMode.DATA →
      (save_optimizer opt pc root fs).files = fs.files) ∧
    (0 < pc.get_global_rank → save_lr_scheduler sched pc root fs = fs) := by
  refine ⟨?_, ?_, ?_⟩
  · have hdirs : (save_optimizer opt pc root fs).dirs =
        (fs.mkdir (pjoin root ("optimizer"))).dirs := by
      by_cases hws : pc.get_world_size ParallelMode.GLOBAL = 0 <;>
        by_cases hskip : opt.inheritsZero = false ∧
            pc.get_local_rank ParallelMode.DATA > 0 <;>
          simp [save_optimizer, hws, hskip, FileSystem.writeFile]
    rw [hdirs]
    exact FileSystem.mem_dirs_mkdir fs _
  · intro hz hdp
    have h := save_optimizer_files_eq V opt pc root fs hv
    rw [if_neg] at h
    · exact h
    · rintro (hc | hc)
      · rw [hz] at hc
        exact Bool.false_ne_true hc
      · omega
  · intro h
    simp [save_lr_scheduler, h]

theorem save_skip_frame_effects_witness :
    (pjoin [] ("optimizer") ∈ (save_optimizer optRep pcDpOne [] (FileSystem.empty Nat)).dirs) ∧
    ((save_optimizer optRep pcDpOne [] (FileSystem.empty Nat)).files =
      (FileSystem.empty Nat).files) ∧
    (save_lr_scheduler schedFix pcDpOne [] (FileSystem.empty Nat) = FileSystem.empty Nat) := by
  obtain ⟨h1, h2, h3⟩ :=
    save_skip_frame_effects Nat optRep schedFix pcDpOne [] (FileSystem.empty Nat) (by decide)
  exact ⟨h1, h2 rfl (by decide), h3 (by decide)⟩

/-- C10: load is atomic with respect to the target object. Whenever
`load_optimizer` or `load_lr_scheduler` surfaces an error (absent shard or
failed deserialization), `load_state_dict` was never invoked and no state
mapping was handed over, so the optimizer's (or scheduler's) state is
untouched. -/
theorem load_error_no_state_change (V : Type) (opt : Optimizer V) (sched : LRScheduler V)
    (pc : ParallelContext) (root : FsPath) (ml : Option String) (fs : FileSystem V)
    (e : LoadError) :
    ((load_optimizer opt pc root ml fs).result = Except.error e →
      (load_optimizer opt pc root ml fs).loadStateDictCalls = 0 ∧
      (load_optimizer opt pc root ml fs).loadedStateDict = none) ∧
    ((load_lr_scheduler sched root fs).result = Except.error e →
      (load_lr_scheduler sched root fs).loadStateDictCalls = 0 ∧
      (load_lr_scheduler sched root fs).loadedStateDict = none) := by
  constructor
  · intro h
    rcases htl : torch_load fs
        (pjoin (pjoin root ("optimizer")) (optimizer_filename pc opt.inheritsZero))
        (if opt.inheritsZero = false then some ("cpu") else ml) with e2 | v
    · constructor <;> simp [load_optimizer, htl]
    · exfalso
      simp [load_optimizer, htl] at h
  · intro h
    rcases htl : torch_load fs
        (pjoin (pjoin root ("lr_scheduler")) lr_scheduler_filename) none with e2 | v
    · constructor <;> simp [load_lr_scheduler, htl]
    · exfalso
      simp [load_lr_scheduler, htl] at h

theorem load_error_no_state_change_witness :
    ((load_optimizer optRep pcTpZero [] none (FileSystem.empty Nat)).loadStateDictCalls = 0 ∧
      (load_optimizer optRep pcTpZero [] none (FileSystem.empty Nat)).loadedStateDict = none) ∧
    ((load_lr_scheduler schedFix [] (FileSystem.empty Nat)).loadStateDictCalls = 0 ∧
      (load_lr_scheduler schedFix [] (FileSystem.empty Nat)).loadedStateDict = none) := by
  obtain ⟨h1, h2⟩ := load_error_no_state_change Nat optRep schedFix pcTpZero [] none
    (FileSystem.empty Nat) LoadError.ShardNotFoundError
  exact ⟨h1 rfl, h2 rfl⟩

end NanotronSerialize
